import Mathlib

/-!
Shallow embedding of the WordPress QA screenshot tool
(`src/run.ts`, `src/worker.ts`, `src/utils.ts`).

Pure functions (config merging, job expansion, slugging, the partition
arithmetic of `captureMultiPartScreenshots`) are translated directly.
Effectful code (`checkPage`, the batch loop of `main`, the multi-part
capture) is translated into pure functions over an explicit environment
describing the external world (navigation outcome, listener events,
selector visibility, document height, capture failures), returning the
`PageResult` together with a trace of the externally visible effects
(context closed or not, artifacts recorded, temp file created/deleted).
-/

namespace SimpleVgress

/-- Substring containment test, modelling JavaScript `String.includes`.
`String.splitOn` returns a singleton exactly when the pattern does not
occur (all patterns used in the source are non-empty). -/
def strContains (s pat : String) : Bool :=
  (s.splitOn pat).length != 1

/-- The `WaitUntilOption` union type from `utils.ts`. -/
inductive WaitUntilOption
  | load
  | domcontentloaded
  | networkidle
  | commit
deriving DecidableEq, Repr

/-- The `PageConfig` interface from `utils.ts`.  The worker additionally reads
`config.maxScreenshotHeight` (compared against `null`), so it is included
here; `none` models the `null` / "no limit" case. -/
structure PageConfig where
  fullPage : Bool
  devices : List String
  timeoutMs : Nat
  requiredSelectors : List String
  abortIfFail : Bool
  waitUntil : WaitUntilOption
  waitFor : List String
  scrollPage : Bool
  maxScreenshotHeight : Option Nat
deriving DecidableEq, Repr

/-- The `Partial<PageConfig>` override object: every field optional; `none` means the field is
absent from the per-page override object. -/
structure PartialPageConfig where
  fullPage : Option Bool := none
  devices : Option (List String) := none
  timeoutMs : Option Nat := none
  requiredSelectors : Option (List String) := none
  abortIfFail : Option Bool := none
  waitUntil : Option WaitUntilOption := none
  waitFor : Option (List String) := none
  scrollPage : Option Bool := none
  maxScreenshotHeight : Option (Option Nat) := none
deriving DecidableEq, Repr

/-- The `Config` interface from `utils.ts`.  `pages` is a `Record<string, Partial<PageConfig>>`;
it is modelled as an association list in object-key iteration order. -/
structure Config where
  default : PageConfig
  pages : List (String × PartialPageConfig)
deriving DecidableEq, Repr

/-- The `PageJob` interface from `utils.ts`. -/
structure PageJob where
  url : String
  device : String
  config : PageConfig
deriving DecidableEq, Repr

/-- Function `mergeConfig` from `utils.ts`: `{ ...defaultConfig, ...pageConfig }`.
Object spread of a `Partial` picks the field of the override exactly when
the field is present on the override object. -/
def mergeConfig (defaultConfig : PageConfig) (pageConfig : PartialPageConfig) : PageConfig where
  fullPage := pageConfig.fullPage.getD defaultConfig.fullPage
  devices := pageConfig.devices.getD defaultConfig.devices
  timeoutMs := pageConfig.timeoutMs.getD defaultConfig.timeoutMs
  requiredSelectors := pageConfig.requiredSelectors.getD defaultConfig.requiredSelectors
  abortIfFail := pageConfig.abortIfFail.getD defaultConfig.abortIfFail
  waitUntil := pageConfig.waitUntil.getD defaultConfig.waitUntil
  waitFor := pageConfig.waitFor.getD defaultConfig.waitFor
  scrollPage := pageConfig.scrollPage.getD defaultConfig.scrollPage
  maxScreenshotHeight := pageConfig.maxScreenshotHeight.getD defaultConfig.maxScreenshotHeight

/-- Function `expandPageJobs` from `utils.ts`: the nested `for` loops pushing one
job per `(url, device)` pair onto the accumulator, in page iteration
order then device list order. -/
def expandPageJobs (config : Config) : List PageJob :=
  config.pages.foldl
    (fun jobs entry =>
      let mergedConfig := mergeConfig config.default entry.2
      mergedConfig.devices.foldl
        (fun jobs device => jobs ++ [⟨entry.1, device, mergedConfig⟩]) jobs)
    []

/-- Specification form of `expandPageJobs`, unfolded to a flat map: one job per `(url, device)`
pair in page-then-device order. -/
def expandPageJobsSpec (config : Config) : List PageJob :=
  config.pages.flatMap (fun entry =>
    let mergedConfig := mergeConfig config.default entry.2
    mergedConfig.devices.map (fun device => ⟨entry.1, device, mergedConfig⟩))

/-- Constant `WORKER_CONCURRENCY` from `run.ts`. -/
def WORKER_CONCURRENCY : Nat := 5

/-- The `PageResult` interface from `worker.ts` (second revision, with optional
`screenshot` and `screenshots` fields). -/
structure PageResult where
  url : String
  device : String
  success : Bool
  errors : List String
  warnings : List String
  duration : Nat
  screenshot : Option String
  screenshots : Option (List String)
deriving DecidableEq, Repr

/-- The `run.ts` gate `jobs.length === 0`, which prints
"No pages configured" and exits before any job executes. -/
def noPagesConfigured (config : Config) : Bool :=
  (expandPageJobs config).length == 0

/-- The inner result scan of `main` in `run.ts`: push each batch result
in order; as soon as a result has `success=false` and its job has
`config.abortIfFail`, stop (`break`), reporting abort.  Returns the
results actually pushed and the abort flag.  `exec` stands for
`checkPage` applied to a job (results of a batch are computed by
`Promise.all` before the scan, so computing them during the scan is
equivalent). -/
def scanBatch (exec : PageJob → PageResult) : List PageJob → List PageResult × Bool
  | [] => ([], false)
  | job :: rest =>
    let r := exec job
    if !r.success && job.config.abortIfFail then
      ([r], true)
    else
      let (rs, ab) := scanBatch exec rest
      (r :: rs, ab)

/-- One iteration of the batch loop of `main` in `run.ts` per unit of
`fuel`: slice off the next batch of size `W` (`jobs.slice(i, i + W)`),
scan its results, and stop launching further batches once the abort flag
is set.  `fuel` only forces structural termination; every step consumes
at least one job, so a fuel of `jobs.length` is never exhausted. -/
def runBatchesAux (exec : PageJob → PageResult) (W : Nat) :
    Nat → List PageJob → List PageResult
  | 0, _ => []
  | _, [] => []
  | fuel + 1, job :: rest =>
    let batch := job :: rest.take (W - 1)
    let remaining := rest.drop (W - 1)
    let scanned := scanBatch exec batch
    if scanned.2 then scanned.1
    else scanned.1 ++ runBatchesAux exec W fuel remaining

/-- The batch loop of `main` in `run.ts`, collecting the `results`
array. -/
def runBatches (exec : PageJob → PageResult) (W : Nat) (jobs : List PageJob) :
    List PageResult :=
  runBatchesAux exec W jobs.length jobs

/-- The per-result summand of `totalScreenshotFiles` in `run.ts`:
`r.screenshots ? r.screenshots.length : (r.screenshot ? 1 : 0)`
(an array is always truthy in JavaScript, so `some l` yields `l.length`). -/
def screenshotFileCount (r : PageResult) : Nat :=
  match r.screenshots with
  | some l => l.length
  | none => match r.screenshot with
    | some _ => 1
    | none => 0

/-- Integer form of `Math.ceil(a / b)` for natural `a`, `b` with `b > 0`, as used in
`captureMultiPartScreenshots`. -/
def ceilNat (a b : Nat) : Nat := (a + b - 1) / b

/-- The quantity `numParts = Math.ceil(pageHeight / maxHeight)` from
`captureMultiPartScreenshots`. -/
def numParts (H M : Nat) : Nat := ceilNat H M

/-- The quantity `partHeight = Math.ceil(pageHeight / numParts)` from
`captureMultiPartScreenshots`. -/
def partHeight (H M : Nat) : Nat := ceilNat H (numParts H M)

/-- The crop origin `startY = i * partHeight` for band `i` (0-indexed) in the crop loop of
`captureMultiPartScreenshots`. -/
def bandStartY (H M : Nat) (i : Nat) : Nat := i * partHeight H M

/-- The crop height `actualHeight = Math.min(partHeight, pageHeight - startY)` for band
`i` in the crop loop.  The subtraction is over the integers, as in
JavaScript. -/
def bandHeightI (H M : Nat) (i : Nat) : Int :=
  min (partHeight H M : Int) ((H : Int) - (bandStartY H M i : Int))

/-- Hostname and pathname of a parsed URL.  `new URL` is a platform
primitive (an external collaborator of the repository), so `urlToSlug`
takes the parser as a function argument; `none` models the constructor
throwing on an invalid URL. -/
structure UrlParts where
  hostname : String
  pathname : String
deriving DecidableEq, Repr

/-- The hostname step of `urlToSlug` in `utils.ts`: replace every dot
with a dash (regex with the g flag). -/
def dotsToDashes (s : String) : String :=
  s.map (fun c => if c = '.' then '-' else c)

/-- The path-stripping step of `urlToSlug`: remove one leading and one
trailing slash (regex anchored at both ends, g flag). -/
def stripSlashes (p : String) : String :=
  let p1 := if p.startsWith "/" then p.drop 1 else p
  if p1.endsWith "/" then p1.dropRight 1 else p1

/-- The path step of `urlToSlug`: replace every slash with a dash. -/
def slashesToDashes (s : String) : String :=
  s.map (fun c => if c = '/' then '-' else c)

/-- Function `urlToSlug` from `utils.ts`.  `parseUrl` stands for the platform URL
constructor; the `catch` branch replaces every non-alphanumeric character
of the raw URL with a dash. -/
def urlToSlug (parseUrl : String → Option UrlParts) (url : String) : String :=
  match parseUrl url with
  | some u =>
    let domain := dotsToDashes u.hostname
    let path :=
      if u.pathname = "/" || u.pathname = "" then "home"
      else slashesToDashes (stripSlashes u.pathname)
    s!"{domain}-{path}"
  | none => url.map (fun c => if c.isAlphanum then c else '-')

/-- Collapse runs of consecutive dashes to a single dash (the effect of
the `+` in the regex `/[^a-z0-9]+/g` after each non-matching character
has been replaced by a dash). -/
def collapseDashes : List Char → List Char
  | [] => []
  | [c] => [c]
  | c :: c2 :: rest =>
    if c = '-' && c2 = '-' then collapseDashes (c2 :: rest)
    else c :: collapseDashes (c2 :: rest)

/-- Function `deviceToSlug` from `utils.ts`:
lowercase the name, then replace every maximal run of characters
outside a-z and 0-9 with a single dash. -/
def deviceToSlug (device : String) : String :=
  String.mk (collapseDashes ((device.toLower).toList.map
    (fun c => if c.isLower || c.isDigit then c else '-')))

/-- Function `formatDuration` from `utils.ts`: `(ms / 1000).toFixed(1)`
(one decimal place, rounding half up). -/
def formatDuration (ms : Nat) : String :=
  let tenths := (ms + 50) / 100
  s!"{tenths / 10}.{tenths % 10}"

/-- Constant `genericErrorPatterns` from `checkPage` in `worker.ts`. -/
def genericErrorPatterns : List String :=
  ["Failed to load resource: the server responded with a status of 401",
   "Failed to load resource: the server responded with a status of 403",
   "Content Security Policy",
   "CSP"]

/-- Constant `ignorePatterns` from `checkPage` in `worker.ts`. -/
def ignorePatterns : List String :=
  ["google-analytics.com",
   "googletagmanager.com",
   "analytics.google.com",
   "doubleclick.net",
   "facebook.com",
   "facebook.net",
   "linkedin.com",
   "twitter.com",
   "google.com/ccm",
   "ads.linkedin.com",
   "recaptcha",
   "csp.withgoogle.com"]

/-- Predicate `shouldIgnoreConsoleError` from `checkPage`. -/
def shouldIgnoreConsoleError (text : String) : Bool :=
  genericErrorPatterns.any (fun p => strContains text p)

/-- Predicate `shouldIgnoreUrl` from `checkPage`. -/
def shouldIgnoreUrl (url : String) : Bool :=
  ignorePatterns.any (fun p => strContains url p)

/-- One event delivered to the listeners `checkPage` attaches before
navigation: a console message, an uncaught page error, a network
response, or a failed request, in arrival order. -/
inductive PageEvent
  | consoleMsg (msgType : String) (text : String)
  | pageError (message : String)
  | response (status : Nat) (url : String)
  | requestFailed (url : String)
deriving DecidableEq, Repr

/-- The effect of one event on the accumulators
`(consoleErrors, networkFailures)`, mirroring the four `page.on`
handlers in `checkPage`. -/
def applyEvent (acc : List String × List String) : PageEvent → List String × List String
  | .consoleMsg msgType text =>
    if msgType == "error" && !shouldIgnoreConsoleError text then
      (acc.1 ++ [text], acc.2)
    else acc
  | .pageError message =>
    if !shouldIgnoreConsoleError message then (acc.1 ++ [message], acc.2) else acc
  | .response status url =>
    if 400 ≤ status && !shouldIgnoreUrl url then
      (acc.1, acc.2 ++ [s!"{status} {url}"])
    else acc
  | .requestFailed url =>
    if !shouldIgnoreUrl url then (acc.1, acc.2 ++ [s!"Failed: {url}"]) else acc

/-- The `(consoleErrors, networkFailures)` accumulators after all events
of the lifetime of the job have been delivered. -/
def collectFindings (events : List PageEvent) : List String × List String :=
  events.foldl applyEvent ([], [])

/-- An artifact as in the data model: filename plus optional 1-based
part index and part count.  Single captures carry no part suffix. -/
structure Artifact where
  filename : String
  partIndex : Option Nat
  partCount : Option Nat
deriving DecidableEq, Repr

/-- Filename of a single (unsplit) capture: `{urlSlug}.{deviceSlug}.png`. -/
def singleFilename (urlSlug deviceSlug : String) : String :=
  s!"{urlSlug}.{deviceSlug}.png"

/-- Filename of band `i` (0-indexed) of a multi-part capture:
`{urlSlug}.{deviceSlug}.part{i+1}of{n}.png`. -/
def partFilename (urlSlug deviceSlug : String) (i n : Nat) : String :=
  s!"{urlSlug}.{deviceSlug}.part{i + 1}of{n}.png"

/-- External behaviour relevant to `captureMultiPartScreenshots`: the
measured document height and whether each effectful step throws
(`page.screenshot`, `Jimp.read`, and crop/write of each band). -/
structure CaptureEnv where
  docHeight : Nat
  screenshotThrows : Option String
  readThrows : Option String
  cropThrows : Nat → Option String

/-- Externally visible effects of one `captureMultiPartScreenshots` run:
whether the temporary full-page raster was created and deleted, which
band files were written to disk, and the crop rectangles
`(startY, actualHeight)` of the completed crops. -/
structure MultiPartTrace where
  tempCreated : Bool
  tempDeleted : Bool
  bandFilesWritten : List String
  cropRects : List (Int × Int)
deriving DecidableEq, Repr

/-- Index and message of the first band whose crop/write throws, if any
(the loop runs bands in order `0, 1, ...`). -/
def firstCropFailure (env : CaptureEnv) (n : Nat) : Option (Nat × String) :=
  (List.range n).findSome? (fun i => (env.cropThrows i).map (fun e => (i, e)))

/-- Function `captureMultiPartScreenshots` from `worker.ts`.  If the document
height is within `maxHeight`, a single full-page artifact is produced.
Otherwise a temporary full raster is captured, cropped into `numParts`
bands, and `fs.unlinkSync(tempFullPath)` runs only after the whole crop
loop finishes; an exception from `Jimp.read` or from a crop/write
propagates to the caller with the temp file still on disk
(`.error` means the exception thrown). -/
def captureMultiPartScreenshots (urlSlug deviceSlug : String) (maxHeight : Nat)
    (env : CaptureEnv) : Except String (List Artifact) × MultiPartTrace :=
  let pageHeight := env.docHeight
  if pageHeight ≤ maxHeight then
    match env.screenshotThrows with
    | some e => (.error e, ⟨false, false, [], []⟩)
    | none => (.ok [⟨singleFilename urlSlug deviceSlug, none, none⟩], ⟨false, false, [], []⟩)
  else
    let n := numParts pageHeight maxHeight
    match env.screenshotThrows with
    | some e => (.error e, ⟨false, false, [], []⟩)
    | none =>
      match env.readThrows with
      | some e => (.error e, ⟨true, false, [], []⟩)
      | none =>
        match firstCropFailure env n with
        | some fail =>
          (.error fail.2,
           ⟨true, false,
            (List.range fail.1).map (fun j => partFilename urlSlug deviceSlug j n),
            (List.range fail.1).map (fun j =>
              ((bandStartY pageHeight maxHeight j : Int), bandHeightI pageHeight maxHeight j))⟩)
        | none =>
          (.ok ((List.range n).map (fun i =>
              ⟨partFilename urlSlug deviceSlug i n, some (i + 1), some n⟩)),
           ⟨true, true,
            (List.range n).map (fun i => partFilename urlSlug deviceSlug i n),
            (List.range n).map (fun i =>
              ((bandStartY pageHeight maxHeight i : Int), bandHeightI pageHeight maxHeight i))⟩)

/-- Outcome of `page.goto`: either it throws, or it completes with a
response (`none` models a `null` response object). -/
inductive NavResult
  | thrown (message : String)
  | completed (response : Option Nat)
deriving DecidableEq, Repr

/-- External behaviour relevant to one `checkPage` run. -/
structure PageEnv where
  nav : NavResult
  navigationTime : Nat
  totalDuration : Nat
  events : List PageEvent
  waitForTimesOut : String → Bool
  selectorFound : String → Bool
  capture : CaptureEnv

/-- Externally visible effects of one `checkPage` run: whether
`context.close()` was reached, the artifacts recorded on the result (the
local `screenshots` array of the code), and the inner multi-part trace when
`captureMultiPartScreenshots` ran.  Band files written before a crop
failure appear only in `multiPart.bandFilesWritten`, never in
`artifacts`, because the assignment of the local `screenshots` array is
skipped when the capture call throws. -/
structure CheckTrace where
  contextClosed : Bool
  artifacts : List Artifact
  multiPart : Option MultiPartTrace
deriving DecidableEq, Repr

/-- The status text interpolated into the `Status` error: a missing
response object, or a status of 0 (falsy in JavaScript), prints as
the word unknown; any other status prints as its number. -/
def statusText (response : Option Nat) : String :=
  match response with
  | none => "unknown"
  | some 0 => "unknown"
  | some s => toString s

/-- The `catch` block of `checkPage`: a message containing `Timeout` is
recorded as `Timeout exceeded`, any other message verbatim. -/
def catchMessage (message : String) : String :=
  if strContains message "Timeout" then "Timeout exceeded" else message

/-- The conversion applied when building the returned `PageResult`:
`screenshots.length > 1 ? screenshots : undefined`. -/
def screenshotsField (screenshots : List String) : Option (List String) :=
  if screenshots.length > 1 then some screenshots else none

/-- Function `checkPage` from `worker.ts` as a pure function of the environment.
Exit paths:
* `page.goto` throws → `catch` records one error; the context is left
  open (there is no `finally`); no artifacts.
* response missing or status ≠ 200 → one `Status …` error, no further
  checks, no capture; the context is closed.
* status 200 → `waitFor` warnings, console/network/selector errors, slow
  warning, then capture.  A capture exception jumps to the `catch`
  (context left open, no artifacts recorded); otherwise the context is
  closed and the artifacts are recorded. -/
def checkPage (parseUrl : String → Option UrlParts) (url device : String)
    (config : PageConfig) (env : PageEnv) : PageResult × CheckTrace :=
  let findings := collectFindings env.events
  let consoleErrors := findings.1
  let networkFailures := findings.2
  match env.nav with
  | .thrown message =>
    ({ url := url, device := device, success := [catchMessage message].isEmpty,
       errors := [catchMessage message], warnings := [],
       duration := env.totalDuration, screenshot := none, screenshots := screenshotsField [] },
     { contextClosed := false, artifacts := [], multiPart := none })
  | .completed response =>
    if response ≠ some 200 then
      ({ url := url, device := device, success := [s!"Status {statusText response}"].isEmpty,
         errors := [s!"Status {statusText response}"], warnings := [],
         duration := env.totalDuration, screenshot := none, screenshots := screenshotsField [] },
       { contextClosed := true, artifacts := [], multiPart := none })
    else
      let waitForWarnings := (config.waitFor.filter env.waitForTimesOut).map
        (fun sel => s!"waitFor selector not visible within 30s: {sel}")
      let joinedConsole := String.intercalate "; " consoleErrors
      let joinedNetwork := String.intercalate "; " networkFailures
      let errs1 : List String :=
        if consoleErrors.isEmpty then [] else [s!"Console errors: {joinedConsole}"]
      let errs2 := errs1 ++
        (if networkFailures.isEmpty then [] else [s!"Network failures: {joinedNetwork}"])
      let errs3 := errs2 ++ (config.requiredSelectors.filter
        (fun sel => !env.selectorFound sel)).map (fun sel => s!"Missing selector: {sel}")
      let durText := formatDuration env.navigationTime
      let warns := waitForWarnings ++
        (if 5000 < env.navigationTime then [s!"Slow page: {durText}s"] else [])
      let urlSlug := urlToSlug parseUrl url
      let deviceSlug := deviceToSlug device
      match config.fullPage, config.maxScreenshotHeight with
      | true, some maxH =>
        match captureMultiPartScreenshots urlSlug deviceSlug maxH env.capture with
        | (.ok arts, trace) =>
          let shots := arts.map (fun a => a.filename)
          ({ url := url, device := device, success := errs3.isEmpty, errors := errs3,
             warnings := warns, duration := env.totalDuration,
             screenshot := shots.head?, screenshots := screenshotsField shots },
           { contextClosed := true, artifacts := arts, multiPart := some trace })
        | (.error e, trace) =>
          ({ url := url, device := device, success := (errs3 ++ [catchMessage e]).isEmpty,
             errors := errs3 ++ [catchMessage e], warnings := warns,
             duration := env.totalDuration, screenshot := none,
             screenshots := screenshotsField [] },
           { contextClosed := false, artifacts := [], multiPart := some trace })
      | _, _ =>
        match env.capture.screenshotThrows with
        | some e =>
          ({ url := url, device := device, success := (errs3 ++ [catchMessage e]).isEmpty,
             errors := errs3 ++ [catchMessage e], warnings := warns,
             duration := env.totalDuration, screenshot := none,
             screenshots := screenshotsField [] },
           { contextClosed := false, artifacts := [], multiPart := none })
        | none =>
          let filename := singleFilename urlSlug deviceSlug
          ({ url := url, device := device, success := errs3.isEmpty, errors := errs3,
             warnings := warns, duration := env.totalDuration,
             screenshot := some filename, screenshots := screenshotsField [filename] },
           { contextClosed := true, artifacts := [⟨filename, none, none⟩], multiPart := none })

/-- Whether the capture step inside `captureMultiPartScreenshots`
throws, expressed on the environment alone (the outcome is independent
of the slug strings): the initial `page.screenshot`, the `Jimp.read`,
or the first failing crop/write. -/
def captureThrows (maxHeight : Nat) (env : CaptureEnv) : Bool :=
  if env.docHeight ≤ maxHeight then env.screenshotThrows.isSome
  else
    env.screenshotThrows.isSome || env.readThrows.isSome
      || (firstCropFailure env (numParts env.docHeight maxHeight)).isSome

/-- Whether the `try` block of `checkPage` throws an exception that
reaches the `catch`: `page.goto` throwing, or — on the status-200 path —
the capture step throwing.  On the bad-status path nothing throws. -/
def checkPageThrows (config : PageConfig) (env : PageEnv) : Bool :=
  match env.nav with
  | .thrown _ => true
  | .completed response =>
    if response ≠ some 200 then false
    else
      match config.fullPage, config.maxScreenshotHeight with
      | true, some maxH => captureThrows maxH env.capture
      | _, _ => env.capture.screenshotThrows.isSome

/-! ### Concrete instances used by counterexamples and witnesses -/

/-- A representative resolved `PageConfig` for concrete scenarios. -/
def baseConfig : PageConfig where
  fullPage := true
  devices := ["desktop"]
  timeoutMs := 10000
  requiredSelectors := []
  abortIfFail := false
  waitUntil := .networkidle
  waitFor := []
  scrollPage := false
  maxScreenshotHeight := none

/-- A job for `url` on the desktop device, with the given `abortIfFail`. -/
def jobNamed (url : String) (abortIfFail : Bool) : PageJob :=
  ⟨url, "desktop", { baseConfig with abortIfFail := abortIfFail }⟩

/-- The job sequence of the batch-atomicity scenario: six jobs, width 5,
`J3` carrying `abortIfFail`. -/
def sixJobs : List PageJob :=
  [jobNamed "J1" false, jobNamed "J2" false, jobNamed "J3" true,
   jobNamed "J4" false, jobNamed "J5" false, jobNamed "J6" false]

/-- Job outcomes for the batch-atomicity scenario: every job succeeds
except `J3`. -/
def execSixJobs (j : PageJob) : PageResult :=
  { url := j.url, device := j.device, success := j.url != "J3",
    errors := if j.url == "J3" then ["Status 500"] else [], warnings := [],
    duration := 0, screenshot := none, screenshots := none }

/-- A URL parser result for `https://example.com/`, standing in for the
platform URL constructor in concrete scenarios. -/
def parseExample : String → Option UrlParts := fun _ => some ⟨"example.com", "/"⟩

/-- A benign capture environment: short document, no failures. -/
def captureOk : CaptureEnv where
  docHeight := 600
  screenshotThrows := none
  readThrows := none
  cropThrows := fun _ => none

/-- A benign page environment: navigation completes with status 200, no
events, all selectors found, nothing times out. -/
def envOk : PageEnv where
  nav := .completed (some 200)
  navigationTime := 1200
  totalDuration := 2400
  events := []
  waitForTimesOut := fun _ => false
  selectorFound := fun _ => true
  capture := captureOk

/-- A capture environment for a tall page whose `Jimp.read` of the
temporary raster fails. -/
def captureReadFails : CaptureEnv where
  docHeight := 25
  screenshotThrows := none
  readThrows := some "EIO: read failure"
  cropThrows := fun _ => none

/-- A configuration with one page whose override resolves to an empty
devices list: the pages map is non-empty, yet no job is produced. -/
def emptyDevicesConfig : Config where
  default := baseConfig
  pages := [("https://a.example/", { devices := some [] })]

/-! ### Arithmetic facts about the partition of `captureMultiPartScreenshots` -/

theorem ceilNat_mul_le (a b : Nat) : ceilNat a b * b ≤ a + b - 1 :=
  Nat.div_mul_le_self _ _

theorem le_mul_ceilNat (a b : Nat) (ha : 0 < a) (hb : 0 < b) : a ≤ b * ceilNat a b := by
  unfold ceilNat
  have h1 := Nat.div_add_mod (a + b - 1) b
  have h2 : (a + b - 1) % b < b := Nat.mod_lt _ hb
  omega

theorem ceilNat_le {a b c : Nat} (hb : 0 < b) (h : a ≤ c * b) : ceilNat a b ≤ c := by
  unfold ceilNat
  have h' : a ≤ b * c := by rwa [Nat.mul_comm] at h
  have h1 : a + b - 1 ≤ b * c + (b - 1) := by omega
  calc (a + b - 1) / b ≤ (b * c + (b - 1)) / b := Nat.div_le_div_right h1
    _ = c + (b - 1) / b := Nat.mul_add_div hb c (b - 1)
    _ = c := by rw [Nat.div_eq_of_lt (by omega), Nat.add_zero]

theorem ceilNat_pos {a b : Nat} (ha : 0 < a) (hb : 0 < b) : 0 < ceilNat a b := by
  by_contra h
  have h0 : ceilNat a b = 0 := by omega
  have := le_mul_ceilNat a b ha hb
  rw [h0] at this
  omega

theorem numParts_pos {H M : Nat} (hM : 0 < M) (hHM : M < H) : 0 < numParts H M :=
  ceilNat_pos (by omega) hM

theorem le_numParts_mul {H M : Nat} (hM : 0 < M) (hHM : M < H) : H ≤ numParts H M * M := by
  have h := le_mul_ceilNat H M (by omega) hM
  unfold numParts
  rwa [Nat.mul_comm M (ceilNat H M)] at h

theorem numParts_sub_one_mul_lt {H M : Nat} (hM : 0 < M) (hHM : M < H) :
    (numParts H M - 1) * M < H := by
  have h1 : numParts H M * M ≤ H + M - 1 := ceilNat_mul_le H M
  have h2 : (numParts H M - 1) * M = numParts H M * M - M := Nat.sub_one_mul _ _
  omega

theorem partHeight_le {H M : Nat} (hM : 0 < M) (hHM : M < H) : partHeight H M ≤ M := by
  have h1 : H ≤ M * numParts H M := by
    rw [Nat.mul_comm]
    exact le_numParts_mul hM hHM
  exact ceilNat_le (numParts_pos hM hHM) h1

theorem partHeight_pos {H M : Nat} (hM : 0 < M) (hHM : M < H) : 0 < partHeight H M :=
  ceilNat_pos (by omega) (numParts_pos hM hHM)

theorem le_numParts_mul_partHeight {H M : Nat} (hM : 0 < M) (hHM : M < H) :
    H ≤ numParts H M * partHeight H M := by
  unfold partHeight
  exact le_mul_ceilNat H (numParts H M) (by omega) (numParts_pos hM hHM)

theorem sub_one_mul_partHeight_lt {H M : Nat} (hM : 0 < M) (hHM : M < H) :
    (numParts H M - 1) * partHeight H M < H := by
  calc (numParts H M - 1) * partHeight H M
      ≤ (numParts H M - 1) * M := Nat.mul_le_mul_left _ (partHeight_le hM hHM)
    _ < H := numParts_sub_one_mul_lt hM hHM

theorem bandStartY_lt {H M : Nat} (hM : 0 < M) (hHM : M < H) {i : Nat}
    (hi : i < numParts H M) : bandStartY H M i < H := by
  unfold bandStartY
  calc i * partHeight H M ≤ (numParts H M - 1) * partHeight H M :=
        Nat.mul_le_mul_right _ (by omega)
    _ < H := sub_one_mul_partHeight_lt hM hHM

theorem bandHeightI_pos {H M : Nat} (hM : 0 < M) (hHM : M < H) {i : Nat}
    (hi : i < numParts H M) : 0 < bandHeightI H M i := by
  unfold bandHeightI
  have h1 : bandStartY H M i < H := bandStartY_lt hM hHM hi
  have h2 : 0 < partHeight H M := partHeight_pos hM hHM
  rw [lt_min_iff]
  constructor
  · exact_mod_cast h2
  · have : (bandStartY H M i : Int) < (H : Int) := by exact_mod_cast h1
    omega

theorem bandHeightI_le {H M : Nat} (hM : 0 < M) (hHM : M < H) (i : Nat) :
    bandHeightI H M i ≤ (M : Int) := by
  unfold bandHeightI
  have h : partHeight H M ≤ M := partHeight_le hM hHM
  calc min (partHeight H M : Int) ((H : Int) - (bandStartY H M i : Int))
      ≤ (partHeight H M : Int) := min_le_left _ _
    _ ≤ (M : Int) := by exact_mod_cast h

theorem bandHeightI_eq_sub {H M : Nat} (hM : 0 < M) (hHM : M < H) {i : Nat}
    (hi : i < numParts H M) :
    bandHeightI H M i
      = min (((i + 1) * partHeight H M : Nat) : Int) (H : Int)
        - min ((i * partHeight H M : Nat) : Int) (H : Int) := by
  have h1 : i * partHeight H M ≤ (numParts H M - 1) * partHeight H M :=
    Nat.mul_le_mul_right _ (by omega)
  have h2 : ((i * partHeight H M : Nat) : Int) ≤ (H : Int) := by
    have := sub_one_mul_partHeight_lt hM hHM
    exact_mod_cast le_of_lt (lt_of_le_of_lt h1 this)
  rw [min_eq_left h2]
  unfold bandHeightI bandStartY
  rw [← min_sub_sub_right]
  congr 1
  push_cast
  ring

theorem bands_sum {H M : Nat} (hM : 0 < M) (hHM : M < H) :
    ∑ i ∈ Finset.range (numParts H M), bandHeightI H M i = (H : Int) := by
  rw [Finset.sum_congr rfl (fun i hi =>
    bandHeightI_eq_sub hM hHM (Finset.mem_range.mp hi))]
  rw [Finset.sum_range_sub (fun i => min ((i * partHeight H M : Nat) : Int) (H : Int))]
  have h1 : H ≤ numParts H M * partHeight H M := le_numParts_mul_partHeight hM hHM
  have h2 : (H : Int) ≤ ((numParts H M * partHeight H M : Nat) : Int) := by exact_mod_cast h1
  rw [min_eq_right h2]
  simp

/-! ### Claim theorems -/

/-- C2: for every document height `H` and `maxScreenshotHeight M` with
`H > M > 0`, the multi-part partitioner produces `numParts = ceil(H/M)`
bands (characterized by `H ≤ numParts·M` and `(numParts-1)·M < H`) with
`partHeight = ceil(H/numParts)`; the band heights sum exactly to `H`;
every band is non-empty and at most `M` tall; consecutive bands are
contiguous (hence non-overlapping), starting at `0` and ending at `H`;
and the emitted `partIndex` values are exactly `1..numParts`. -/
theorem C2_partition_coverage (u d : String) {H M : Nat} (hM : 0 < M) (hHM : M < H) :
    (H ≤ numParts H M * M ∧ (numParts H M - 1) * M < H)
    ∧ (∑ i ∈ Finset.range (numParts H M), bandHeightI H M i = (H : Int))
    ∧ (∀ i, i < numParts H M → 0 < bandHeightI H M i ∧ bandHeightI H M i ≤ (M : Int))
    ∧ (∀ i, i + 1 < numParts H M →
        (bandStartY H M (i + 1) : Int) = (bandStartY H M i : Int) + bandHeightI H M i)
    ∧ (bandStartY H M 0 = 0
       ∧ (bandStartY H M (numParts H M - 1) : Int)
           + bandHeightI H M (numParts H M - 1) = (H : Int))
    ∧ (captureMultiPartScreenshots u d M ⟨H, none, none, fun _ => none⟩).1.map
        (fun arts => arts.map Artifact.partIndex)
        = .ok ((List.range' 1 (numParts H M)).map some) := by
  refine ⟨⟨le_numParts_mul hM hHM, numParts_sub_one_mul_lt hM hHM⟩,
          bands_sum hM hHM, ?_, ?_, ⟨?_, ?_⟩, ?_⟩
  · intro i hi
    exact ⟨bandHeightI_pos hM hHM hi, bandHeightI_le hM hHM i⟩
  · intro i hi
    have hle : (i + 1) * partHeight H M < H := by
      calc (i + 1) * partHeight H M ≤ (numParts H M - 1) * partHeight H M :=
            Nat.mul_le_mul_right _ (by omega)
        _ < H := sub_one_mul_partHeight_lt hM hHM
    unfold bandHeightI bandStartY
    have hmin : (partHeight H M : Int) ≤ (H : Int) - ((i * partHeight H M : Nat) : Int) := by
      have h1 : ((i + 1) * partHeight H M : Nat) ≤ H := le_of_lt hle
      have h2 : (((i + 1) * partHeight H M : Nat) : Int) ≤ (H : Int) := by exact_mod_cast h1
      push_cast at h2 ⊢
      linarith
    rw [min_eq_left hmin]
    push_cast
    ring
  · simp [bandStartY]
  · have hn : 0 < numParts H M := numParts_pos hM hHM
    have h2 : H ≤ numParts H M * partHeight H M := le_numParts_mul_partHeight hM hHM
    have hnat : (numParts H M - 1) * partHeight H M + partHeight H M
        = numParts H M * partHeight H M := by
      have := Nat.sub_one_mul (numParts H M) (partHeight H M)
      have hle := Nat.le_mul_of_pos_left (partHeight H M) hn
      omega
    unfold bandHeightI bandStartY
    have key : (H : Int) - (((numParts H M - 1) * partHeight H M : Nat) : Int)
        ≤ (partHeight H M : Int) := by
      have hcast : (((numParts H M - 1) * partHeight H M : Nat) : Int)
          + (partHeight H M : Int) = ((numParts H M * partHeight H M : Nat) : Int) := by
        exact_mod_cast hnat
      have h2c : ((H : Nat) : Int) ≤ ((numParts H M * partHeight H M : Nat) : Int) := by
        exact_mod_cast h2
      omega
    rw [min_eq_right key]
    ring
  · have hgt : ¬ H ≤ M := by omega
    have hnone : (List.range (numParts H M)).findSome?
        (fun i => ((fun _ => (none : Option String)) i).map (fun e => (i, e))) = none := by
      simp
    simp only [captureMultiPartScreenshots, if_neg hgt, firstCropFailure, hnone]
    simp [Except.map, List.range'_eq_map_range, List.map_map, Function.comp, Nat.add_comm]

/-- Witness for C2 at `H = 25`, `M = 12` (three bands of heights 9, 9, 7). -/
theorem C2_partition_coverage_witness :
    ∑ i ∈ Finset.range (numParts 25 12), bandHeightI 25 12 i = (25 : Int) :=
  (C2_partition_coverage "example-com-home" "desktop" (by decide) (by decide)).2.1

/-- C1 as stated is false: with jobs `J1..J6`, width 5, and `J3` failing
with `abortIfFail=true`, the scan loop in `main` pushes results one at a
time and breaks out immediately after pushing the result of `J3`, so the
results of `J4` and `J5` — members of the same batch, whose executions
did complete — are dropped; only `J1..J3` are returned. -/
theorem C1_counterexample :
    (runBatches execSixJobs 5 sixJobs).map PageResult.url = ["J1", "J2", "J3"]
    ∧ "J4" ∉ (runBatches execSixJobs 5 sixJobs).map PageResult.url
    ∧ "J5" ∉ (runBatches execSixJobs 5 sixJobs).map PageResult.url := by
  decide

/-- C1 amended: for jobs `J1..J6` run with width 5 where `J1`, `J2`
succeed and `J3` has `abortIfFail=true` and fails, the scheduler returns
exactly the results of `J1`, `J2`, `J3` — every result of the failing
batch up to and including the failing job, in original job order — and
nothing for `J4`, `J5` (scanned after the failure in the same batch) or
`J6` (a batch never launched). -/
theorem C1_batch_abort_scan (exec : PageJob → PageResult) (j1 j2 j3 j4 j5 j6 : PageJob)
    (h1 : (exec j1).success = true) (h2 : (exec j2).success = true)
    (h3s : (exec j3).success = false) (h3a : j3.config.abortIfFail = true) :
    runBatches exec 5 [j1, j2, j3, j4, j5, j6] = [exec j1, exec j2, exec j3] := by
  simp [runBatches, runBatchesAux, scanBatch, h1, h2, h3s, h3a]

/-- Witness for the amended C1 at the concrete six-job scenario. -/
theorem C1_batch_abort_scan_witness :
    runBatches execSixJobs 5 sixJobs
      = [execSixJobs (jobNamed "J1" false), execSixJobs (jobNamed "J2" false),
         execSixJobs (jobNamed "J3" true)] := by
  have h := C1_batch_abort_scan execSixJobs
    (jobNamed "J1" false) (jobNamed "J2" false) (jobNamed "J3" true)
    (jobNamed "J4" false) (jobNamed "J5" false) (jobNamed "J6" false)
    (by decide) (by decide) (by decide) (by decide)
  simpa [sixJobs] using h

/-- C3: when navigation completes with a missing response object or a
status other than 200, the result carries exactly the one error
`Status <code|unknown>`, no warnings (hence no selector, console or
network findings), no screenshot fields, and no artifacts; the capture
code never runs. -/
theorem C3_status_gating (parseUrl : String → Option UrlParts) (url device : String)
    (config : PageConfig) (env : PageEnv) (response : Option Nat)
    (hnav : env.nav = .completed response) (hbad : response ≠ some 200) :
    (checkPage parseUrl url device config env).1.errors = [s!"Status {statusText response}"]
    ∧ (checkPage parseUrl url device config env).1.warnings = []
    ∧ (checkPage parseUrl url device config env).1.success = false
    ∧ (checkPage parseUrl url device config env).1.screenshot = none
    ∧ (checkPage parseUrl url device config env).1.screenshots = none
    ∧ (checkPage parseUrl url device config env).2.artifacts = []
    ∧ (checkPage parseUrl url device config env).2.multiPart = none := by
  simp [checkPage, hnav, hbad, screenshotsField]

/-- Witness for C3 at a concrete 404 navigation. -/
theorem C3_status_gating_witness :
    (checkPage parseExample "https://example.com/" "desktop" baseConfig
      { envOk with nav := .completed (some 404) }).1.errors = ["Status 404"]
    ∧ (checkPage parseExample "https://example.com/" "desktop" baseConfig
      { envOk with nav := .completed (some 404) }).2.artifacts = [] := by
  have h := C3_status_gating parseExample "https://example.com/" "desktop" baseConfig
    { envOk with nav := .completed (some 404) } (some 404) rfl (by decide)
  exact ⟨h.1, h.2.2.2.2.2.1⟩

/-- C4 as stated is false: on the exit path where `page.goto` throws
(for example a navigation timeout), the `catch` block of `checkPage`
records the error but never calls `context.close()` — there is no
`finally` — so the context created for the job is left open. -/
theorem C4_counterexample :
    (checkPage parseExample "https://example.com/" "desktop" baseConfig
      { envOk with nav := .thrown "Timeout of 10000 ms exceeded" }).2.contextClosed
      ≠ true := by
  decide

/-- C4 amended: the browsing context is closed before the `PageResult`
is returned exactly on the exit paths where no exception escapes the
`try` block — navigation completing with a bad status, or status 200
with the capture step succeeding.  On the exception paths (navigation
throws, or capture throws) the context is left open. -/
theorem C4_context_close (parseUrl : String → Option UrlParts) (url device : String)
    (config : PageConfig) (env : PageEnv) :
    (checkPage parseUrl url device config env).2.contextClosed
      = !checkPageThrows config env := by
  unfold checkPage checkPageThrows
  cases hnav : env.nav with
  | thrown m => simp
  | completed response =>
    by_cases hbad : response ≠ some 200
    · simp [hbad]
    · simp only [hbad, if_false, ite_false, if_neg]
      cases hfp : config.fullPage with
      | false =>
        cases hs : env.capture.screenshotThrows <;>
          cases hmh : config.maxScreenshotHeight <;> simp [hs]
      | true =>
        cases hmh : config.maxScreenshotHeight with
        | none => cases hs : env.capture.screenshotThrows <;> simp [hs]
        | some maxH =>
          unfold captureThrows captureMultiPartScreenshots
          by_cases htall : env.capture.docHeight ≤ maxH
          · simp only [if_pos htall]
            cases hs : env.capture.screenshotThrows <;> simp [hs]
          · simp only [if_neg htall]
            cases hs : env.capture.screenshotThrows with
            | some e => simp [hs]
            | none =>
              cases hr : env.capture.readThrows with
              | some e => simp [hr]
              | none =>
                cases hf : firstCropFailure env.capture
                    (numParts env.capture.docHeight maxH) <;> simp [hf]

/-- C5 as stated is false: when `Jimp.read` of the temporary full-page
raster throws, the error propagates out of
`captureMultiPartScreenshots` before the `fs.unlinkSync(tempFullPath)`
line is reached, so the temporary file is created but never deleted. -/
theorem C5_counterexample :
    (captureMultiPartScreenshots "example-com-home" "desktop" 12 captureReadFails).2.tempCreated
      = true
    ∧ (captureMultiPartScreenshots "example-com-home" "desktop" 12
        captureReadFails).2.tempDeleted ≠ true := by
  decide

/-- C5 amended: on the multi-part path (document taller than the limit,
initial full-page screenshot succeeding) the temporary raster is
created, and it is deleted if and only if the read and the crop/write
of every band complete without error; on an error the temp file is left on
disk and the exception propagates to the caller. -/
theorem C5_temp_file_deletion (u d : String) (maxHeight : Nat) (env : CaptureEnv)
    (hH : maxHeight < env.docHeight) (hs : env.screenshotThrows = none) :
    (captureMultiPartScreenshots u d maxHeight env).2.tempCreated = true
    ∧ ((captureMultiPartScreenshots u d maxHeight env).2.tempDeleted = true
        ↔ ∃ arts, (captureMultiPartScreenshots u d maxHeight env).1 = .ok arts) := by
  unfold captureMultiPartScreenshots
  rw [if_neg (by omega)]
  rw [hs]
  cases hr : env.readThrows with
  | some e => simp
  | none =>
    cases hf : firstCropFailure env (numParts env.docHeight maxHeight) <;> simp [hf]

/-- Witness for the amended C5 at a concrete error-free tall capture. -/
theorem C5_temp_file_deletion_witness :
    (captureMultiPartScreenshots "example-com-home" "desktop" 12
      ⟨25, none, none, fun _ => none⟩).2.tempCreated = true :=
  (C5_temp_file_deletion "example-com-home" "desktop" 12
    ⟨25, none, none, fun _ => none⟩ (by decide) rfl).1

/-- C6: if `fullPage` is false, or `maxScreenshotHeight` is unlimited,
or the measured document height fits within the limit, the capture step
of a status-200 job records exactly one artifact, carrying no part index
and no part count. -/
theorem C6_single_capture (parseUrl : String → Option UrlParts) (url device : String)
    (config : PageConfig) (env : PageEnv)
    (hnav : env.nav = .completed (some 200))
    (hs : env.capture.screenshotThrows = none)
    (hcase : config.fullPage = false ∨ config.maxScreenshotHeight = none
      ∨ ∃ maxH, config.maxScreenshotHeight = some maxH ∧ env.capture.docHeight ≤ maxH) :
    (checkPage parseUrl url device config env).2.artifacts.length = 1
    ∧ ∀ a ∈ (checkPage parseUrl url device config env).2.artifacts,
        a.partIndex = none ∧ a.partCount = none := by
  unfold checkPage
  simp only [hnav]
  rw [if_neg (by simp)]
  rcases hcase with hfp | hmh | ⟨maxH, hmh, hfit⟩
  · rw [hfp]
    simp [hs]
  · rw [hmh]
    cases hfp : config.fullPage <;> simp [hs]
  · rw [hmh]
    cases hfp : config.fullPage with
    | false => simp [hs]
    | true => simp [captureMultiPartScreenshots, hs, hfit]

/-- Witness for C6: `baseConfig` has no screenshot-height limit, so a
healthy 200 job records a single unsuffixed artifact. -/
theorem C6_single_capture_witness :
    (checkPage parseExample "https://example.com/" "desktop" baseConfig envOk).2.artifacts.length
      = 1 :=
  (C6_single_capture parseExample "https://example.com/" "desktop" baseConfig envOk
    rfl rfl (Or.inr (Or.inl rfl))).1

/-- C7: `mergeConfig D O` equals `D` on every field absent from `O` and
equals `O` on every field present in `O`, the present field replacing
the default wholesale (list fields included). -/
theorem C7_merge_determinism (D : PageConfig) (O : PartialPageConfig) :
    ((O.fullPage = none → (mergeConfig D O).fullPage = D.fullPage)
      ∧ ∀ v, O.fullPage = some v → (mergeConfig D O).fullPage = v)
    ∧ ((O.devices = none → (mergeConfig D O).devices = D.devices)
      ∧ ∀ v, O.devices = some v → (mergeConfig D O).devices = v)
    ∧ ((O.timeoutMs = none → (mergeConfig D O).timeoutMs = D.timeoutMs)
      ∧ ∀ v, O.timeoutMs = some v → (mergeConfig D O).timeoutMs = v)
    ∧ ((O.requiredSelectors = none → (mergeConfig D O).requiredSelectors = D.requiredSelectors)
      ∧ ∀ v, O.requiredSelectors = some v → (mergeConfig D O).requiredSelectors = v)
    ∧ ((O.abortIfFail = none → (mergeConfig D O).abortIfFail = D.abortIfFail)
      ∧ ∀ v, O.abortIfFail = some v → (mergeConfig D O).abortIfFail = v)
    ∧ ((O.waitUntil = none → (mergeConfig D O).waitUntil = D.waitUntil)
      ∧ ∀ v, O.waitUntil = some v → (mergeConfig D O).waitUntil = v)
    ∧ ((O.waitFor = none → (mergeConfig D O).waitFor = D.waitFor)
      ∧ ∀ v, O.waitFor = some v → (mergeConfig D O).waitFor = v)
    ∧ ((O.scrollPage = none → (mergeConfig D O).scrollPage = D.scrollPage)
      ∧ ∀ v, O.scrollPage = some v → (mergeConfig D O).scrollPage = v)
    ∧ ((O.maxScreenshotHeight = none
        → (mergeConfig D O).maxScreenshotHeight = D.maxScreenshotHeight)
      ∧ ∀ v, O.maxScreenshotHeight = some v → (mergeConfig D O).maxScreenshotHeight = v) := by
  refine ⟨⟨?_, ?_⟩, ⟨?_, ?_⟩, ⟨?_, ?_⟩, ⟨?_, ?_⟩, ⟨?_, ?_⟩, ⟨?_, ?_⟩, ⟨?_, ?_⟩,
    ⟨?_, ?_⟩, ⟨?_, ?_⟩⟩
  all_goals intros
  all_goals simp [mergeConfig, *]

/-- Witness for C7: an override carrying only `devices` replaces the
device list wholesale and leaves `timeoutMs` at the default. -/
theorem C7_merge_determinism_witness :
    (mergeConfig baseConfig { devices := some ["mobile", "tablet"] }).devices
      = ["mobile", "tablet"]
    ∧ (mergeConfig baseConfig { devices := some ["mobile", "tablet"] }).timeoutMs
      = baseConfig.timeoutMs :=
  ⟨(C7_merge_determinism baseConfig { devices := some ["mobile", "tablet"] }).2.1.2
      ["mobile", "tablet"] rfl,
   (C7_merge_determinism baseConfig { devices := some ["mobile", "tablet"] }).2.2.1.1 rfl⟩

theorem foldl_append_map {α β : Type} (l : List α) (f : α → β) (acc : List β) :
    l.foldl (fun js x => js ++ [f x]) acc = acc ++ l.map f := by
  induction l generalizing acc with
  | nil => simp
  | cons a t ih => simp [ih]

theorem foldl_append_flatMap {α β : Type} (l : List α) (g : α → List β) (acc : List β) :
    l.foldl (fun js x => js ++ g x) acc = acc ++ l.flatMap g := by
  induction l generalizing acc with
  | nil => simp
  | cons a t ih => simp [ih]

theorem expandPageJobs_eq_spec (config : Config) :
    expandPageJobs config = expandPageJobsSpec config := by
  unfold expandPageJobs expandPageJobsSpec
  have hbody : (fun (jobs : List PageJob) (entry : String × PartialPageConfig) =>
      let mergedConfig := mergeConfig config.default entry.2
      mergedConfig.devices.foldl
        (fun jobs device => jobs ++ [⟨entry.1, device, mergedConfig⟩]) jobs)
      = fun jobs entry => jobs ++ (mergeConfig config.default entry.2).devices.map
          (fun device => ⟨entry.1, device, mergeConfig config.default entry.2⟩) := by
    funext jobs entry
    simp [foldl_append_map]
  rw [hbody, foldl_append_flatMap]
  simp

/-- C8: job expansion yields one job per `(url, device)` pair — exactly
`Σ k_p` jobs for device lists of lengths `k_p` — in page iteration order
and, within a page, device list order, every job carrying the fully
merged config of its page. -/
theorem C8_job_expansion (config : Config) :
    expandPageJobs config = expandPageJobsSpec config
    ∧ (expandPageJobs config).length
      = (config.pages.map
          (fun entry => (mergeConfig config.default entry.2).devices.length)).sum := by
  have h := expandPageJobs_eq_spec config
  refine ⟨h, ?_⟩
  rw [h]
  unfold expandPageJobsSpec
  rw [List.length_flatMap]
  simp [Function.comp_def]

/-- C9 as stated is partly false: with a non-empty pages map whose only
page resolves to an empty devices list, the expanded job list is empty,
so the `jobs.length === 0` gate in `run.ts` does fire the
"No pages configured" error. -/
theorem C9_counterexample :
    emptyDevicesConfig.pages ≠ []
    ∧ (∀ entry ∈ emptyDevicesConfig.pages,
        (mergeConfig emptyDevicesConfig.default entry.2).devices = [])
    ∧ noPagesConfigured emptyDevicesConfig = true := by
  decide

/-- C9 amended: a page whose resolved devices list is empty contributes
zero jobs (appending such a page leaves the job list unchanged), and the
"no pages configured" error fires exactly when the expanded job list is
empty — that is, when every page of the map (of possibly none) resolves
to an empty devices list; the empty pages map is one such case, a
non-empty all-empty-devices map is another. -/
theorem C9_no_pages_gate (config : Config) (url : String) (o : PartialPageConfig)
    (hempty : (mergeConfig config.default o).devices = []) :
    expandPageJobs { default := config.default, pages := config.pages ++ [(url, o)] }
      = expandPageJobs config
    ∧ (noPagesConfigured config = true
        ↔ ∀ entry ∈ config.pages, (mergeConfig config.default entry.2).devices = []) := by
  constructor
  · rw [expandPageJobs_eq_spec, expandPageJobs_eq_spec]
    unfold expandPageJobsSpec
    simp [hempty]
  · rw [noPagesConfigured, expandPageJobs_eq_spec]
    unfold expandPageJobsSpec
    simp only [List.length_flatMap, Function.comp_def, List.sum_eq_zero_iff,
      List.length_map, beq_iff_eq, List.mem_map, forall_exists_index, and_imp,
      Prod.forall, Prod.mk.injEq]
    constructor
    · intro h a b hm
      exact List.length_eq_zero.mp (h _ a b hm rfl)
    · intro h x a b hm hx
      subst hx
      rw [h a b hm]
      rfl

/-- Witness for the amended C9: appending the empty-devices page to the
empty configuration produces no job. -/
theorem C9_no_pages_gate_witness :
    expandPageJobs emptyDevicesConfig
      = expandPageJobs { default := baseConfig, pages := [] } := by
  have h := (C9_no_pages_gate { default := baseConfig, pages := [] } "https://a.example/"
    { devices := some [] } (by decide)).1
  simpa [emptyDevicesConfig] using h

theorem screenshotsField_isSome (shots : List String) :
    (screenshotsField shots).isSome ↔ 1 < shots.length := by
  unfold screenshotsField
  split <;> simp [*]

theorem screenshotFileCount_eq (r : PageResult) (shots : List String)
    (hplural : r.screenshots = screenshotsField shots) (hsingle : r.screenshot = shots.head?) :
    screenshotFileCount r = shots.length := by
  unfold screenshotFileCount
  rw [hplural, hsingle]
  rcases shots with _ | ⟨a, _ | ⟨b, t⟩⟩ <;> simp [screenshotsField]

/-- C10: the plural `screenshots` field is present iff more than one
artifact was recorded for the job; the per-result summand of the
screenshot-file count of the report (`screenshots.length` when present, else
1 if `screenshot` is set, else 0) equals the number of recorded
artifacts; and the scalar `screenshot` field is the first recorded
filename of the first recorded artifact (absent when there is none). -/
theorem C10_screenshots_bookkeeping (parseUrl : String → Option UrlParts)
    (url device : String) (config : PageConfig) (env : PageEnv) :
    ((checkPage parseUrl url device config env).1.screenshots.isSome
      ↔ 1 < (checkPage parseUrl url device config env).2.artifacts.length)
    ∧ screenshotFileCount (checkPage parseUrl url device config env).1
      = (checkPage parseUrl url device config env).2.artifacts.length
    ∧ (checkPage parseUrl url device config env).1.screenshot
      = ((checkPage parseUrl url device config env).2.artifacts.map Artifact.filename).head? := by
  unfold checkPage
  cases hnav : env.nav with
  | thrown m => simp [screenshotsField, screenshotFileCount]
  | completed response =>
    by_cases hbad : response ≠ some 200
    · simp [hbad, screenshotsField, screenshotFileCount]
    · simp only [hbad, ite_false, if_neg]
      cases hfp : config.fullPage with
      | false =>
        cases hs : env.capture.screenshotThrows <;>
          simp [hs, screenshotsField, screenshotFileCount]
      | true =>
        cases hmh : config.maxScreenshotHeight with
        | none =>
          cases hs : env.capture.screenshotThrows <;>
            simp [hs, screenshotsField, screenshotFileCount]
        | some maxH =>
          rcases hcap : captureMultiPartScreenshots (urlToSlug parseUrl url)
              (deviceToSlug device) maxH env.capture with ⟨res, trace⟩
          cases res with
          | error e => simp [hcap, screenshotsField, screenshotFileCount]
          | ok arts =>
            simp only [hcap]
            refine ⟨?_, ?_, ?_⟩
            · simp [screenshotsField_isSome]
            · rw [screenshotFileCount_eq _ (arts.map (fun a => a.filename)) rfl rfl]
              simp
            · simp

end SimpleVgress
